import Mathlib

/-!
Verification of the MAX77975/MAX77976 battery-charger driver.

The driver talks to the device over a two-wire bus: every public operation
issues a sequence of bus transactions (single-byte register writes, or
write-then-read transfers).  We embed the driver shallowly: a `Bus` assigns
to every transaction index an outcome (an optional transport error and, for
reads, the returned bytes), a `DState` records how many transactions were
issued so far together with the trace of transactions, and each driver
operation is a function from `DState` to a `Except E α × DState` pair,
mirroring the Rust control flow (`?` propagation, `saturating_sub`, `min`)
line by line.
-/

namespace Max7797x

/-- The fixed 7-bit bus address of the device (`const ADDR: u8 = 0x6b`). -/
def ADDR : Nat := 0x6b

namespace Reg

def CHIP_ID : Nat := 0x00
def CHIP_REVISION : Nat := 0x01
def OTP_REVISION : Nat := 0x02
def TOP_INTERRUPT : Nat := 0x03
def TOP_INTERRUPT_MASK : Nat := 0x04
def TOP_CONTROL : Nat := 0x05
def SOFTWARE_RESET : Nat := 0x50
def SHIP_MODE_CONTROL : Nat := 0x51
def I2C_CONFIG : Nat := 0x40
def CHARGER_INTERRUPT : Nat := 0x10
def CHARGER_INTERRUPT_MASK : Nat := 0x11
def CHARGER_INTERRUPT_STATUS : Nat := 0x12
def CHARGER_DETAILS_0 : Nat := 0x13
def CHARGER_DETAILS_1 : Nat := 0x14
def CHARGER_DETAILS_2 : Nat := 0x15
def CHARGER_CONFIG_0 : Nat := 0x16
def CHARGER_CONFIG_1 : Nat := 0x17
def CHARGER_CONFIG_2 : Nat := 0x18
def CHARGER_CONFIG_3 : Nat := 0x19
def CHARGER_CONFIG_4 : Nat := 0x1a
def CHARGER_CONFIG_5 : Nat := 0x1b
def CHARGER_CONFIG_6 : Nat := 0x1c
def CHARGER_CONFIG_7 : Nat := 0x1d
def CHARGER_CONFIG_8 : Nat := 0x1e
def CHARGER_CONFIG_9 : Nat := 0x1f
def CHARGER_CONFIG_10 : Nat := 0x20
def CHARGER_CONFIG_11 : Nat := 0x21
def CHARGER_CONFIG_12 : Nat := 0x22
def CHARGER_CONFIG_13 : Nat := 0x23
def STATUS_LED_CONFIG : Nat := 0x24

end Reg

/-- One bus transaction, as issued by the driver's transport adapter:
`wr reg val` is a single addressed write of `[reg, val]` (`write_reg`);
`rd reg len` is an addressed write of `[reg]` followed by a read of `len`
bytes in the same transaction (`read_reg` / `read_buf`). -/
inductive Tx where
  | wr (reg val : Nat)
  | rd (reg len : Nat)
deriving DecidableEq, Repr

/-- The behaviour of the external bus, indexed by transaction count: `err i`
is the transport error of the `i`-th transaction issued by this driver
instance (`none` = success), and `data i j` is the `j`-th byte the device
returns when the `i`-th transaction is a read. -/
structure Bus (E : Type) where
  err : Nat → Option E
  data : Nat → Nat → Nat

/-- Driver-side bus state: the number of transactions issued so far and the
trace of those transactions in order. -/
structure DState where
  txCount : Nat
  trace : List Tx
deriving DecidableEq, Repr

/-- The state right after construction, before any bus traffic. -/
def DState.init : DState := ⟨0, []⟩

/-- The driver object: it owns exactly the injected bus device
(`pub struct Charger<D> { i2c_dev: D }`). -/
structure Charger (D : Type) where
  i2c_dev : D

/-- `Charger::new` stores the injected bus device and issues no bus
transactions; the second component is the (empty) list of transactions
performed during construction. -/
def Charger.new {D : Type} (d : D) : Charger D × List Tx := (⟨d⟩, [])

/-- `write_reg`: one addressed write transaction of `[reg, val]`. -/
def write_reg {E : Type} (bus : Bus E) (reg val : Nat) (s : DState) :
    Except E Unit × DState :=
  let s' : DState := ⟨s.txCount + 1, s.trace ++ [Tx.wr reg val]⟩
  match bus.err s.txCount with
  | some e => (Except.error e, s')
  | none => (Except.ok (), s')

/-- `read_reg`: write the register address then read one byte, as a single
transaction. -/
def read_reg {E : Type} (bus : Bus E) (reg : Nat) (s : DState) :
    Except E Nat × DState :=
  let s' : DState := ⟨s.txCount + 1, s.trace ++ [Tx.rd reg 1]⟩
  match bus.err s.txCount with
  | some e => (Except.error e, s')
  | none => (Except.ok (bus.data s.txCount 0 % 256), s')

/-- `read_buf`: write the base register address then read `len` sequential
bytes (device auto-increment), as a single transaction. -/
def read_buf {E : Type} (bus : Bus E) (reg len : Nat) (s : DState) :
    Except E (List Nat) × DState :=
  let s' : DState := ⟨s.txCount + 1, s.trace ++ [Tx.rd reg len]⟩
  match bus.err s.txCount with
  | some e => (Except.error e, s')
  | none => (Except.ok ((List.range len).map fun j => bus.data s.txCount j % 256), s')

/-- `write_protected_reg`: unlock (`0x0c` to CHARGER_CONFIG_6, `?`), target
write (result captured in `res`), lock (`0x00` to CHARGER_CONFIG_6, `?`),
then return `res`.  Note the `?` on the lock write: a lock-write error is
propagated before `res` is returned. -/
def write_protected_reg {E : Type} (bus : Bus E) (reg val : Nat) (s : DState) :
    Except E Unit × DState :=
  match write_reg bus Reg.CHARGER_CONFIG_6 0x0c s with
  | (Except.error e, s1) => (Except.error e, s1)
  | (Except.ok _, s1) =>
    match write_reg bus reg val s1 with
    | (res, s2) =>
      match write_reg bus Reg.CHARGER_CONFIG_6 0x00 s2 with
      | (Except.error e, s3) => (Except.error e, s3)
      | (Except.ok _, s3) => (res, s3)

/-- `modify_reg`: read the register (`?`), apply the pure transform, write the
result back. -/
def modify_reg {E : Type} (bus : Bus E) (reg : Nat) (func : Nat → Nat) (s : DState) :
    Except E Unit × DState :=
  match read_reg bus reg s with
  | (Except.error e, s1) => (Except.error e, s1)
  | (Except.ok v, s1) => write_reg bus reg (func v) s1

/-- The charger interrupt flags: an 8-bit bitfield.  Bit 2 is a `#[skip]`
padding bit; the generated codec stores the raw byte, so the padding bit is
carried through decode and re-encode, which we model with the explicit
`reserved2` field. -/
structure ChargerInterrupts where
  bypass_node : Bool
  disqbat : Bool
  reserved2 : Bool
  battery : Bool
  charger : Bool
  input_current_limit : Bool
  chgin : Bool
  adaptive_input_current_loop : Bool
deriving DecidableEq, Repr

/-- `ChargerInterrupts::from_bytes([b])`: each flag is the corresponding bit
of the byte, LSB first (`bypass_node` = bit 0, ..,
`adaptive_input_current_loop` = bit 7). -/
def ChargerInterrupts.from_bytes (b : Nat) : ChargerInterrupts :=
  ⟨b.testBit 0, b.testBit 1, b.testBit 2, b.testBit 3,
   b.testBit 4, b.testBit 5, b.testBit 6, b.testBit 7⟩

/-- `ChargerInterrupts::into_bytes()[0]`: reassemble the byte from the flag
bits (including the skipped bit 2). -/
def ChargerInterrupts.into_bytes (x : ChargerInterrupts) : Nat :=
  (cond x.bypass_node 0x01 0) ||| (cond x.disqbat 0x02 0) |||
  (cond x.reserved2 0x04 0) ||| (cond x.battery 0x08 0) |||
  (cond x.charger 0x10 0) ||| (cond x.input_current_limit 0x20 0) |||
  (cond x.chgin 0x40 0) ||| (cond x.adaptive_input_current_loop 0x80 0)

/-- Charging mode: a 4-bit code with five valid values. -/
inductive Mode where
  | Off
  | Buck
  | Charge
  | Boost
  | Otg
deriving DecidableEq, Repr

/-- `mode as u8`: the fixed discriminants of the `Mode` enum. -/
def Mode.toCode : Mode → Nat
  | .Off => 0x0
  | .Buck => 0x4
  | .Charge => 0x5
  | .Boost => 0x9
  | .Otg => 0xa

/-- The `BitfieldSpecifier` decoder for `Mode`: only the five declared codes
decode; every other 4-bit pattern is an `InvalidBitPattern` error, modelled
as `none` (the decoder returns a `Result`, it never panics). -/
def Mode.from_bytes : Nat → Option Mode
  | 0x0 => some .Off
  | 0x4 => some .Buck
  | 0x5 => some .Charge
  | 0x9 => some .Boost
  | 0xa => some .Otg
  | _ => none

/-- CHGIN status, 2 bits, codes 0–3 in declaration order. -/
inductive ChgIn where
  | Undervoltage
  | BelowBatt
  | Overvoltage
  | Valid
deriving DecidableEq, Repr

/-- Decoder for the 2-bit `ChgIn` field: all four codes are declared. -/
def ChgIn.from_bytes : Nat → Option ChgIn
  | 0 => some .Undervoltage
  | 1 => some .BelowBatt
  | 2 => some .Overvoltage
  | 3 => some .Valid
  | _ => none

/-- Battery sense status, 2 bits, codes 0–3 in declaration order. -/
inductive BatterySense where
  | Connected
  | PositiveOpen
  | NegativeOpen
  | BothOpen
deriving DecidableEq, Repr

/-- Decoder for the 2-bit `BatterySense` field: all four codes are declared. -/
def BatterySense.from_bytes : Nat → Option BatterySense
  | 0 => some .Connected
  | 1 => some .PositiveOpen
  | 2 => some .NegativeOpen
  | 3 => some .BothOpen
  | _ => none

/-- Temperature regulation status, 1 bit. -/
inductive TemperatureRegulation where
  | BelowThreshold
  | AboveThreshold
deriving DecidableEq, Repr

/-- Decoder for the 1-bit `TemperatureRegulation` field. -/
def TemperatureRegulation.from_bytes : Nat → Option TemperatureRegulation
  | 0 => some .BelowThreshold
  | 1 => some .AboveThreshold
  | _ => none

/-- Battery status, 3 bits; code 6 is an explicit `Reserved` variant. -/
inductive BatteryDetails where
  | BatteryRemoved
  | PrequalificationVoltage
  | TimerFault
  | RegularVoltage
  | LowVoltage
  | Overvoltage
  | Reserved
  | BatteryOnly
deriving DecidableEq, Repr

/-- Decoder for the 3-bit `BatteryDetails` field: all eight codes are
declared (`BatteryOnly = 7`). -/
def BatteryDetails.from_bytes : Nat → Option BatteryDetails
  | 0 => some .BatteryRemoved
  | 1 => some .PrequalificationVoltage
  | 2 => some .TimerFault
  | 3 => some .RegularVoltage
  | 4 => some .LowVoltage
  | 5 => some .Overvoltage
  | 6 => some .Reserved
  | 7 => some .BatteryOnly
  | _ => none

/-- Charger status, 4 bits; codes 5, 9 and 15 are explicit reserved
variants (`Reserved05`, `Reserved09`, `Reserved0F`). -/
inductive ChargerDetails where
  | Prequalification
  | ConstantCurrent
  | ConstantVoltage
  | TopOff
  | Done
  | Reserved05
  | TimerFault
  | QBattDisabled
  | Off
  | Reserved09
  | HighTemperature
  | WatchdogTimer
  | Jeita
  | ThermistorRemoval
  | SuspendPin
  | Reserved0F
deriving DecidableEq, Repr

/-- Decoder for the 4-bit `ChargerDetails` field: all sixteen codes are
declared (`TimerFault = 6`, `HighTemperature = 0x0a`). -/
def ChargerDetails.from_bytes : Nat → Option ChargerDetails
  | 0x0 => some .Prequalification
  | 0x1 => some .ConstantCurrent
  | 0x2 => some .ConstantVoltage
  | 0x3 => some .TopOff
  | 0x4 => some .Done
  | 0x5 => some .Reserved05
  | 0x6 => some .TimerFault
  | 0x7 => some .QBattDisabled
  | 0x8 => some .Off
  | 0x9 => some .Reserved09
  | 0xa => some .HighTemperature
  | 0xb => some .WatchdogTimer
  | 0xc => some .Jeita
  | 0xd => some .ThermistorRemoval
  | 0xe => some .SuspendPin
  | 0xf => some .Reserved0F
  | _ => none

/-- Thermistor status, 3 bits; code 7 is an explicit `Reserved` variant. -/
inductive ThermistorDetails where
  | Cold
  | Cool
  | Normal
  | Warm
  | Hot
  | Removed
  | Disabled
  | Reserved
deriving DecidableEq, Repr

/-- Decoder for the 3-bit `ThermistorDetails` field: all eight codes are
declared. -/
def ThermistorDetails.from_bytes : Nat → Option ThermistorDetails
  | 0 => some .Cold
  | 1 => some .Cool
  | 2 => some .Normal
  | 3 => some .Warm
  | 4 => some .Hot
  | 5 => some .Removed
  | 6 => some .Disabled
  | 7 => some .Reserved
  | _ => none

/-- Bypass node status: a 4-bit flag set. -/
structure BypassNodeDetails where
  otg_current_limit : Bool
  boost_current_limit : Bool
  buck_current_limit : Bool
  boost_on : Bool
deriving DecidableEq, Repr

/-- Decode the 4-bit bypass-node code, LSB first. -/
def BypassNodeDetails.from_bytes (c : Nat) : BypassNodeDetails :=
  ⟨c.testBit 0, c.testBit 1, c.testBit 2, c.testBit 3⟩

/-- Re-encode the bypass-node flags to their 4-bit code. -/
def BypassNodeDetails.into_bytes (x : BypassNodeDetails) : Nat :=
  (cond x.otg_current_limit 0x1 0) ||| (cond x.boost_current_limit 0x2 0) |||
  (cond x.buck_current_limit 0x4 0) ||| (cond x.boost_on 0x8 0)

/-- Detailed charger status: a 24-bit word stored raw (the generated
bitfield stores its bytes verbatim; fields are extracted by the getters
below).  Layout, LSB first: bit 0 skip, bits 1–2 `sense`, bits 3–4 skip,
bits 5–6 `chgin`, bit 7 skip, bits 8–11 `charger`, bits 12–14 `battery`,
bit 15 `temp`, bits 16–19 `bypass`, bits 20–22 `thermistor`, bit 23 skip. -/
structure Details where
  raw : Nat
deriving DecidableEq, Repr

/-- `Details::from_bytes(buf)`: the three bytes form the 24-bit word, first
byte in the least significant position. -/
def Details.from_bytes (b0 b1 b2 : Nat) : Details :=
  ⟨b0 % 256 + 256 * (b1 % 256) + 65536 * (b2 % 256)⟩

/-- Extract the field of the given width at the given bit offset from a
packed word. -/
def bitsAt (w off width : Nat) : Nat := w / 2 ^ off % 2 ^ width

def Details.sense (d : Details) : Option BatterySense :=
  BatterySense.from_bytes (bitsAt d.raw 1 2)

def Details.chgin (d : Details) : Option ChgIn :=
  ChgIn.from_bytes (bitsAt d.raw 5 2)

def Details.charger (d : Details) : Option ChargerDetails :=
  ChargerDetails.from_bytes (bitsAt d.raw 8 4)

def Details.battery (d : Details) : Option BatteryDetails :=
  BatteryDetails.from_bytes (bitsAt d.raw 12 3)

def Details.temp (d : Details) : Option TemperatureRegulation :=
  TemperatureRegulation.from_bytes (bitsAt d.raw 15 1)

def Details.bypass (d : Details) : BypassNodeDetails :=
  BypassNodeDetails.from_bytes (bitsAt d.raw 16 4)

def Details.thermistor (d : Details) : Option ThermistorDetails :=
  ThermistorDetails.from_bytes (bitsAt d.raw 20 3)

/-- `set_sys_ilim`: quantize `(milliamps / 500).saturating_sub(5).min(0xf)`
(Lean `Nat` subtraction is saturating), OR in the recycle bit, and issue a
protected write to CHARGER_CONFIG_5. -/
def set_sys_ilim {E : Type} (bus : Bus E) (milliamps : Nat) (recycle_en : Bool)
    (s : DState) : Except E Unit × DState :=
  let sys_ilim := min (milliamps / 500 - 5) 0xf
  let recycle := if recycle_en then 0x10 else 0x00
  write_protected_reg bus Reg.CHARGER_CONFIG_5 (recycle ||| sys_ilim) s

/-- `set_chgin_ilim`: quantize `(milliamps / 50).saturating_sub(1).min(0x3f)`
and read-modify-write CHARGER_CONFIG_9, keeping the top two bits of the read
value. -/
def set_chgin_ilim {E : Type} (bus : Bus E) (milliamps : Nat) (s : DState) :
    Except E Unit × DState :=
  let chgin_ilim := min (milliamps / 50 - 1) 0x3f
  modify_reg bus Reg.CHARGER_CONFIG_9 (fun v => (v &&& 0xc0) ||| chgin_ilim) s

/-- `set_fast_charge_current`: quantize `(milliamps / 50).min(0x7f)` and
issue a protected write to CHARGER_CONFIG_2. -/
def set_fast_charge_current {E : Type} (bus : Bus E) (milliamps : Nat)
    (s : DState) : Except E Unit × DState :=
  write_protected_reg bus Reg.CHARGER_CONFIG_2 (min (milliamps / 50) 0x7f) s

/-- `set_mode`: write the mode's code to CHARGER_CONFIG_0, unprotected. -/
def set_mode {E : Type} (bus : Bus E) (mode : Mode) (s : DState) :
    Except E Unit × DState :=
  write_reg bus Reg.CHARGER_CONFIG_0 mode.toCode s

/-- `enter_ship_mode`: write `0x01` to SHIP_MODE_CONTROL. -/
def enter_ship_mode {E : Type} (bus : Bus E) (s : DState) :
    Except E Unit × DState :=
  write_reg bus Reg.SHIP_MODE_CONTROL 0x01 s

/-- `set_charger_irq_mask`: write `!irqs.into_bytes()[0]` — the bitwise
complement of the encoded flag byte (for a byte `b < 256`, u8 `!b` is
`b ^^^ 0xff`) — to CHARGER_INTERRUPT_MASK. -/
def set_charger_irq_mask {E : Type} (bus : Bus E) (irqs : ChargerInterrupts)
    (s : DState) : Except E Unit × DState :=
  write_reg bus Reg.CHARGER_INTERRUPT_MASK (irqs.into_bytes ^^^ 0xff) s

/-- `charger_irq_flags`: read the interrupt register (one byte) and decode. -/
def charger_irq_flags {E : Type} (bus : Bus E) (s : DState) :
    Except E ChargerInterrupts × DState :=
  match read_reg bus Reg.CHARGER_INTERRUPT s with
  | (Except.error e, s1) => (Except.error e, s1)
  | (Except.ok x, s1) => (Except.ok (ChargerInterrupts.from_bytes x), s1)

/-- `charger_status`: read three sequential bytes starting at
CHARGER_INTERRUPT in one transaction and decode only `buf[2]` (the status
register). -/
def charger_status {E : Type} (bus : Bus E) (s : DState) :
    Except E ChargerInterrupts × DState :=
  match read_buf bus Reg.CHARGER_INTERRUPT 3 s with
  | (Except.error e, s1) => (Except.error e, s1)
  | (Except.ok buf, s1) => (Except.ok (ChargerInterrupts.from_bytes (buf.getD 2 0)), s1)

/-- `charger_details`: read three sequential bytes starting at
CHARGER_DETAILS_0 in one transaction and decode them as a `Details` word. -/
def charger_details {E : Type} (bus : Bus E) (s : DState) :
    Except E Details × DState :=
  match read_buf bus Reg.CHARGER_DETAILS_0 3 s with
  | (Except.error e, s1) => (Except.error e, s1)
  | (Except.ok buf, s1) =>
    (Except.ok (Details.from_bytes (buf.getD 0 0) (buf.getD 1 0) (buf.getD 2 0)), s1)

/-! ### Transport-level lemmas -/

theorem write_reg_snd {E : Type} (bus : Bus E) (reg val : Nat) (s : DState) :
    (write_reg bus reg val s).2 = ⟨s.txCount + 1, s.trace ++ [Tx.wr reg val]⟩ := by
  unfold write_reg
  cases bus.err s.txCount <;> rfl

theorem write_reg_ok {E : Type} (bus : Bus E) (reg val : Nat) (s : DState)
    (h : bus.err s.txCount = none) :
    write_reg bus reg val s =
      (Except.ok (), ⟨s.txCount + 1, s.trace ++ [Tx.wr reg val]⟩) := by
  unfold write_reg
  rw [h]

theorem write_reg_err {E : Type} (bus : Bus E) (reg val : Nat) (s : DState) (e : E)
    (h : bus.err s.txCount = some e) :
    write_reg bus reg val s =
      (Except.error e, ⟨s.txCount + 1, s.trace ++ [Tx.wr reg val]⟩) := by
  unfold write_reg
  rw [h]

theorem read_reg_ok {E : Type} (bus : Bus E) (reg : Nat) (s : DState)
    (h : bus.err s.txCount = none) :
    read_reg bus reg s =
      (Except.ok (bus.data s.txCount 0 % 256), ⟨s.txCount + 1, s.trace ++ [Tx.rd reg 1]⟩) := by
  unfold read_reg
  rw [h]

theorem read_buf_ok {E : Type} (bus : Bus E) (reg len : Nat) (s : DState)
    (h : bus.err s.txCount = none) :
    read_buf bus reg len s =
      (Except.ok ((List.range len).map fun j => bus.data s.txCount j % 256),
       ⟨s.txCount + 1, s.trace ++ [Tx.rd reg len]⟩) := by
  unfold read_buf
  rw [h]

theorem read_buf_err {E : Type} (bus : Bus E) (reg len : Nat) (s : DState) (e : E)
    (h : bus.err s.txCount = some e) :
    read_buf bus reg len s =
      (Except.error e, ⟨s.txCount + 1, s.trace ++ [Tx.rd reg len]⟩) := by
  unfold read_buf
  rw [h]

/-- If the unlock write fails, `write_protected_reg` stops after that single
transaction and returns the unlock error. -/
theorem write_protected_reg_unlock_fail {E : Type} (bus : Bus E) (reg val : Nat)
    (s : DState) (e : E) (h : bus.err s.txCount = some e) :
    write_protected_reg bus reg val s =
      (Except.error e, ⟨s.txCount + 1, s.trace ++ [Tx.wr Reg.CHARGER_CONFIG_6 0x0c]⟩) := by
  unfold write_protected_reg
  rw [write_reg_err bus _ _ s e h]

/-- If the unlock write succeeds, `write_protected_reg` issues unlock, target
and lock writes in order; a lock-write error is propagated (the `?` on the
lock write), otherwise the target write's outcome is returned. -/
theorem write_protected_reg_unlock_ok {E : Type} (bus : Bus E) (reg val : Nat)
    (s : DState) (h : bus.err s.txCount = none) :
    write_protected_reg bus reg val s =
      ((match bus.err (s.txCount + 2) with
        | some e2 => Except.error e2
        | none => (bus.err (s.txCount + 1)).elim (Except.ok ()) Except.error),
       ⟨s.txCount + 3,
        s.trace ++ [Tx.wr Reg.CHARGER_CONFIG_6 0x0c, Tx.wr reg val,
          Tx.wr Reg.CHARGER_CONFIG_6 0x00]⟩) := by
  cases h1 : bus.err (s.txCount + 1) <;> cases h2 : bus.err (s.txCount + 2) <;>
    simp [write_protected_reg, write_reg, h, h1, h2, Nat.add_assoc, Option.elim]

/-! ### Bit-arithmetic helper lemmas -/

/-- ORing a 4-bit code with the recycle bit keeps the code in the low nibble
and puts the flag exactly in bit 4. -/
theorem or_recycle_bits (r : Bool) (c : Nat) (hc : c ≤ 15) :
    ((if r then 0x10 else 0x00) ||| c) % 16 = c ∧
    ((if r then 0x10 else 0x00) ||| c).testBit 4 = r := by
  interval_cases c <;> cases r <;> decide

/-- ORing a 6-bit code into a byte whose low six bits are cleared keeps the
top two bits and stores the code in the low six bits. -/
theorem and_or_mask_c0 (v c : Nat) (hc : c < 64) :
    ((v &&& 0xc0) ||| c) &&& 0xc0 = v &&& 0xc0 ∧
    ((v &&& 0xc0) ||| c) &&& 0x3f = c := by
  have hpow : ∀ i : Nat, 6 ≤ i → (2 : Nat) ^ 6 ≤ 2 ^ i :=
    fun i hi => Nat.pow_le_pow_right (by norm_num) hi
  constructor
  · apply Nat.eq_of_testBit_eq
    intro i
    simp only [Nat.testBit_and, Nat.testBit_or]
    by_cases h6 : 6 ≤ i
    · have hcb : c.testBit i = false :=
        Nat.testBit_eq_false_of_lt (lt_of_lt_of_le hc (hpow i h6))
      rw [hcb]
      cases v.testBit i <;> cases (0xc0 : Nat).testBit i <;> rfl
    · have h192 : (0xc0 : Nat).testBit i = false := by
        interval_cases i <;> decide
      rw [h192]
      cases v.testBit i <;> cases c.testBit i <;> rfl
  · apply Nat.eq_of_testBit_eq
    intro i
    simp only [Nat.testBit_and, Nat.testBit_or]
    by_cases h6 : 6 ≤ i
    · have hcb : c.testBit i = false :=
        Nat.testBit_eq_false_of_lt (lt_of_lt_of_le hc (hpow i h6))
      have h63 : (0x3f : Nat).testBit i = false :=
        Nat.testBit_eq_false_of_lt (lt_of_lt_of_le (by norm_num) (hpow i h6))
      rw [hcb, h63]
      cases v.testBit i <;> cases (0xc0 : Nat).testBit i <;> rfl
    · have h192 : (0xc0 : Nat).testBit i = false := by
        interval_cases i <;> decide
      have h63 : (0x3f : Nat).testBit i = true := by
        interval_cases i <;> decide
      rw [h192, h63]
      cases v.testBit i <;> cases c.testBit i <;> rfl

/-- The encoded interrupt byte fits in eight bits. -/
theorem ChargerInterrupts.into_bytes_lt (x : ChargerInterrupts) : x.into_bytes < 256 := by
  rcases x with ⟨b0, b1, b2, b3, b4, b5, b6, b7⟩
  cases b0 <;> cases b1 <;> cases b2 <;> cases b3 <;>
    cases b4 <;> cases b5 <;> cases b6 <;> cases b7 <;> decide

set_option maxRecDepth 4096 in
/-- On bytes, XOR with `0xff` is the u8 bitwise complement `255 - b`. -/
theorem xor_ff_eq_sub : ∀ b, b < 256 → b ^^^ 0xff = 255 - b := by decide

/-! ### Concrete buses used by witnesses and counterexamples -/

/-- A bus on which every transaction succeeds; the interrupt-status byte
(third byte of a read) is `0b10010000`, every other byte is `0`. -/
def okBus : Bus Nat :=
  ⟨fun _ => none, fun _ j => if j = 2 then 0b10010000 else 0⟩

/-- A bus whose first transaction succeeds and whose second and third
transactions fail with the distinct errors `1` and `2`. -/
def cexBus : Bus Nat :=
  ⟨fun i => if i = 1 then some 1 else if i = 2 then some 2 else none, fun _ _ => 0⟩

/-! ### Claims -/

/-- Claim C1, amended.  For every protected write (`set_sys_ilim` and
`set_fast_charge_current` both delegate to `write_protected_reg`): the
driver writes `0x0c` to CHARGER_CONFIG_6 (unlock), then the target value,
then `0x00` to CHARGER_CONFIG_6 (lock); if the unlock write fails, neither
the target nor the lock write is attempted and the unlock error is
returned; if the unlock succeeds, the lock write is always attempted; if
the lock write fails, the lock write's error is the one returned — even
when the target write also failed — and only when the lock write succeeds
does the overall result equal the result of the target write. -/
theorem C1_protected_write {E : Type} (bus : Bus E) (reg val : Nat) (s : DState) :
    (∀ ma r, set_sys_ilim bus ma r s =
        write_protected_reg bus Reg.CHARGER_CONFIG_5
          ((if r then 0x10 else 0x00) ||| min (ma / 500 - 5) 0xf) s) ∧
    (∀ ma, set_fast_charge_current bus ma s =
        write_protected_reg bus Reg.CHARGER_CONFIG_2 (min (ma / 50) 0x7f) s) ∧
    (∀ e, bus.err s.txCount = some e →
        write_protected_reg bus reg val s =
          (Except.error e, ⟨s.txCount + 1, s.trace ++ [Tx.wr Reg.CHARGER_CONFIG_6 0x0c]⟩)) ∧
    (bus.err s.txCount = none →
        (write_protected_reg bus reg val s).2.trace =
          s.trace ++ [Tx.wr Reg.CHARGER_CONFIG_6 0x0c, Tx.wr reg val,
            Tx.wr Reg.CHARGER_CONFIG_6 0x00] ∧
        (∀ e2, bus.err (s.txCount + 2) = some e2 →
            (write_protected_reg bus reg val s).1 = Except.error e2) ∧
        (bus.err (s.txCount + 2) = none →
            (write_protected_reg bus reg val s).1 =
              (bus.err (s.txCount + 1)).elim (Except.ok ()) Except.error)) := by
  refine ⟨fun ma r => rfl, fun ma => rfl,
    fun e he => write_protected_reg_unlock_fail bus reg val s e he, fun h => ?_⟩
  rw [write_protected_reg_unlock_ok bus reg val s h]
  exact ⟨rfl, fun e2 he2 => by simp [he2], fun h2 => by simp [h2]⟩

/-- Witness for C1: on an all-success bus the protected write issues
exactly unlock, target, lock in order. -/
theorem C1_witness :
    (write_protected_reg okBus Reg.CHARGER_CONFIG_2 20 DState.init).2.trace =
      DState.init.trace ++ [Tx.wr Reg.CHARGER_CONFIG_6 0x0c,
        Tx.wr Reg.CHARGER_CONFIG_2 20, Tx.wr Reg.CHARGER_CONFIG_6 0x00] :=
  ((C1_protected_write okBus Reg.CHARGER_CONFIG_2 20 DState.init).2.2.2 rfl).1

/-- Counterexample to C1 as stated: on `cexBus` the unlock succeeds, the
target write fails with error `1` and the lock write fails with error `2`;
the driver returns the lock write's error `2`, not the target write's
error `1` as the claim demands. -/
theorem C1_counterexample :
    (set_fast_charge_current cexBus 1000 DState.init).1 = Except.error 2 ∧
    (set_fast_charge_current cexBus 1000 DState.init).1 ≠ Except.error 1 := by
  refine ⟨rfl, fun hc => ?_⟩
  rw [show (set_fast_charge_current cexBus 1000 DState.init).1 = Except.error 2 from rfl] at hc
  exact absurd (Except.error.inj hc) (by omega)

/-- Claim C2: `set_sys_ilim` quantizes to
`clamp(floor(milliamps / 500) - 5, 0, 15)`, which is at most 15 for every
u16 input and exactly 15 for inputs at least 10000; it ORs in `0x10`
exactly when `recycle_en` is true (bit 4 of the written byte, low nibble
holding the code), and issues a protected write of that byte to
CHARGER_CONFIG_5. -/
theorem C2_set_sys_ilim {E : Type} (bus : Bus E) (ma : Nat) (r : Bool) (s : DState)
    (hma : ma < 65536) :
    set_sys_ilim bus ma r s =
      write_protected_reg bus Reg.CHARGER_CONFIG_5
        ((if r then 0x10 else 0x00) ||| min (ma / 500 - 5) 0xf) s ∧
    min (ma / 500 - 5) 0xf ≤ 15 ∧
    (10000 ≤ ma → min (ma / 500 - 5) 0xf = 15) ∧
    ((if r then 0x10 else 0x00) ||| min (ma / 500 - 5) 0xf) % 16 =
      min (ma / 500 - 5) 0xf ∧
    ((if r then 0x10 else 0x00) ||| min (ma / 500 - 5) 0xf).testBit 4 = r := by
  refine ⟨rfl, Nat.min_le_right _ _, ?_,
    (or_recycle_bits r _ (Nat.min_le_right _ _)).1,
    (or_recycle_bits r _ (Nat.min_le_right _ _)).2⟩
  intro hge
  have h20 : 20 ≤ ma / 500 := (Nat.le_div_iff_mul_le (by norm_num)).mpr (by omega)
  omega

/-- Witness for C2: at 10000 mA with recycle enabled the code saturates at
15 and the recycle bit is set. -/
theorem C2_witness :
    (10000 ≤ 10000 → min (10000 / 500 - 5) 0xf = 15) ∧
    ((if true then 0x10 else 0x00) ||| min (10000 / 500 - 5) 0xf).testBit 4 = true :=
  ⟨(C2_set_sys_ilim okBus 10000 true DState.init (by norm_num)).2.2.1,
   (C2_set_sys_ilim okBus 10000 true DState.init (by norm_num)).2.2.2.2⟩

/-- Claim C3: `set_chgin_ilim` performs a read-modify-write of
CHARGER_CONFIG_9 whose written byte is
`(v &&& 0xc0) ||| clamp(floor(milliamps / 50) - 1, 0, 63)` for the
previously-read byte `v`: the top two bits of `v` are preserved and the low
six bits hold the quantized code. -/
theorem C3_set_chgin_ilim {E : Type} (bus : Bus E) (ma : Nat) (s : DState)
    (h : bus.err s.txCount = none) :
    (set_chgin_ilim bus ma s).2.trace =
      s.trace ++ [Tx.rd Reg.CHARGER_CONFIG_9 1,
        Tx.wr Reg.CHARGER_CONFIG_9
          ((bus.data s.txCount 0 % 256 &&& 0xc0) ||| min (ma / 50 - 1) 0x3f)] ∧
    ((bus.data s.txCount 0 % 256 &&& 0xc0) ||| min (ma / 50 - 1) 0x3f) &&& 0xc0 =
      bus.data s.txCount 0 % 256 &&& 0xc0 ∧
    ((bus.data s.txCount 0 % 256 &&& 0xc0) ||| min (ma / 50 - 1) 0x3f) &&& 0x3f =
      min (ma / 50 - 1) 0x3f := by
  have hc : min (ma / 50 - 1) 0x3f < 64 := by omega
  refine ⟨?_, (and_or_mask_c0 _ _ hc).1, (and_or_mask_c0 _ _ hc).2⟩
  cases h1 : bus.err (s.txCount + 1) <;>
    simp [set_chgin_ilim, modify_reg, read_reg, write_reg, h, h1, Nat.add_assoc]

/-- Witness for C3: on an all-success bus the read-modify-write trace is
as described. -/
theorem C3_witness :
    (set_chgin_ilim okBus 500 DState.init).2.trace =
      DState.init.trace ++ [Tx.rd Reg.CHARGER_CONFIG_9 1,
        Tx.wr Reg.CHARGER_CONFIG_9
          ((okBus.data DState.init.txCount 0 % 256 &&& 0xc0) |||
            min (500 / 50 - 1) 0x3f)] :=
  (C3_set_chgin_ilim okBus 500 DState.init rfl).1

/-- Claim C4: `set_fast_charge_current` quantizes to
`clamp(floor(milliamps / 50), 0, 127)` — at most 127 for every u16 input
and exactly 127 for inputs at least 6400 — and issues a protected write of
that byte to CHARGER_CONFIG_2. -/
theorem C4_set_fast_charge_current {E : Type} (bus : Bus E) (ma : Nat) (s : DState)
    (hma : ma < 65536) :
    set_fast_charge_current bus ma s =
      write_protected_reg bus Reg.CHARGER_CONFIG_2 (min (ma / 50) 0x7f) s ∧
    min (ma / 50) 0x7f ≤ 127 ∧
    (6400 ≤ ma → min (ma / 50) 0x7f = 127) := by
  refine ⟨rfl, Nat.min_le_right _ _, ?_⟩
  intro hge
  have h128 : 128 ≤ ma / 50 := (Nat.le_div_iff_mul_le (by norm_num)).mpr (by omega)
  omega

/-- Witness for C4: at 6400 mA the code saturates at 127. -/
theorem C4_witness : min (6400 / 50) 0x7f = 127 :=
  (C4_set_fast_charge_current okBus 6400 DState.init (by norm_num)).2.2 (by norm_num)

/-- Claim C5: `charger_status` reads three sequential bytes starting at
CHARGER_INTERRUPT in a single bus transaction and decodes only the third
byte (the first two bytes do not affect the result); raw status byte
`0b10010000` decodes with exactly `charger` and
`adaptive_input_current_loop` set. -/
theorem C5_charger_status {E : Type} (bus : Bus E) (s : DState) :
    (charger_status bus s).2.trace = s.trace ++ [Tx.rd Reg.CHARGER_INTERRUPT 3] ∧
    (bus.err s.txCount = none →
      (charger_status bus s).1 =
        Except.ok (ChargerInterrupts.from_bytes (bus.data s.txCount 2 % 256))) ∧
    ChargerInterrupts.from_bytes 0b10010000 =
      ⟨false, false, false, false, true, false, false, true⟩ := by
  refine ⟨?_, fun h => ?_, by decide⟩
  · cases h0 : bus.err s.txCount <;> simp [charger_status, read_buf, h0]
  · unfold charger_status
    rw [read_buf_ok bus _ _ s h]
    rfl

/-- Witness for C5: on `okBus` the decoded status is the third returned
byte. -/
theorem C5_witness :
    (charger_status okBus DState.init).1 =
      Except.ok (ChargerInterrupts.from_bytes (okBus.data DState.init.txCount 2 % 256)) :=
  (C5_charger_status okBus DState.init).2.1 rfl

/-- Claim C6: every sub-field decoder of `Details` is total on every code of
its declared width (sense 2 bits, chgin 2 bits, charger 4 bits, battery 3
bits, temp 1 bit, bypass 4 bits, thermistor 3 bits), and the all-zero raw
bytes decode to the zero-valued variant of every sub-field. -/
theorem C6_details_total :
    (∀ c, c < 4 → (BatterySense.from_bytes c).isSome = true) ∧
    (∀ c, c < 4 → (ChgIn.from_bytes c).isSome = true) ∧
    (∀ c, c < 16 → (ChargerDetails.from_bytes c).isSome = true) ∧
    (∀ c, c < 8 → (BatteryDetails.from_bytes c).isSome = true) ∧
    (∀ c, c < 2 → (TemperatureRegulation.from_bytes c).isSome = true) ∧
    (∀ c, c < 8 → (ThermistorDetails.from_bytes c).isSome = true) ∧
    (∀ c, c < 16 → BypassNodeDetails.into_bytes (BypassNodeDetails.from_bytes c) = c) ∧
    (Details.sense (Details.from_bytes 0 0 0) = some BatterySense.Connected ∧
     Details.chgin (Details.from_bytes 0 0 0) = some ChgIn.Undervoltage ∧
     Details.charger (Details.from_bytes 0 0 0) = some ChargerDetails.Prequalification ∧
     Details.battery (Details.from_bytes 0 0 0) = some BatteryDetails.BatteryRemoved ∧
     Details.temp (Details.from_bytes 0 0 0) = some TemperatureRegulation.BelowThreshold ∧
     Details.bypass (Details.from_bytes 0 0 0) = ⟨false, false, false, false⟩ ∧
     Details.thermistor (Details.from_bytes 0 0 0) = some ThermistorDetails.Cold) := by
  decide

/-- Witness for C6: the largest 4-bit charger code decodes (to
`Reserved0F`). -/
theorem C6_witness : (ChargerDetails.from_bytes 15).isSome = true :=
  C6_details_total.2.2.1 15 (by norm_num)

/-- Claim C7: decode-after-encode round trips — every `ChargerInterrupts`
value and every `BypassNodeDetails` value survives encode/decode; encoding
each of the five valid `Mode`s and decoding yields the same mode, and every
other 4-bit pattern decodes to the explicit invalid-pattern result rather
than failing. -/
theorem C7_roundtrip :
    (∀ x : ChargerInterrupts,
        ChargerInterrupts.from_bytes (ChargerInterrupts.into_bytes x) = x) ∧
    (∀ y : BypassNodeDetails,
        BypassNodeDetails.from_bytes (BypassNodeDetails.into_bytes y) = y) ∧
    (∀ m : Mode, Mode.from_bytes m.toCode = some m) ∧
    (∀ c, c < 16 →
        (c = 0x0 ∨ c = 0x4 ∨ c = 0x5 ∨ c = 0x9 ∨ c = 0xa) ∨
          Mode.from_bytes c = none) := by
  refine ⟨?_, ?_, ?_, by decide⟩
  · rintro ⟨b0, b1, b2, b3, b4, b5, b6, b7⟩
    cases b0 <;> cases b1 <;> cases b2 <;> cases b3 <;>
      cases b4 <;> cases b5 <;> cases b6 <;> cases b7 <;> rfl
  · rintro ⟨b0, b1, b2, b3⟩
    cases b0 <;> cases b1 <;> cases b2 <;> cases b3 <;> rfl
  · intro m
    cases m <;> rfl

/-- Witness for C7: the invalid 4-bit pattern `3` decodes to the
invalid-pattern result. -/
theorem C7_witness :
    (3 = 0x0 ∨ 3 = 0x4 ∨ 3 = 0x5 ∨ 3 = 0x9 ∨ 3 = 0xa) ∨ Mode.from_bytes 3 = none :=
  C7_roundtrip.2.2.2 3 (by norm_num)

/-- Claim C8: `set_charger_irq_mask` writes exactly the bitwise complement
of the encoded flag byte to CHARGER_INTERRUPT_MASK: the written byte is
`255 - encoded`, every one of its eight bits is the negation of the
corresponding encoded bit. -/
theorem C8_set_charger_irq_mask {E : Type} (bus : Bus E) (x : ChargerInterrupts)
    (s : DState) :
    (set_charger_irq_mask bus x s).2.trace =
      s.trace ++ [Tx.wr Reg.CHARGER_INTERRUPT_MASK (x.into_bytes ^^^ 0xff)] ∧
    x.into_bytes ^^^ 0xff = 255 - x.into_bytes ∧
    (∀ i, i < 8 → (x.into_bytes ^^^ 0xff).testBit i = !x.into_bytes.testBit i) := by
  refine ⟨?_, xor_ff_eq_sub _ x.into_bytes_lt, fun i hi => ?_⟩
  · rw [show set_charger_irq_mask bus x s =
        write_reg bus Reg.CHARGER_INTERRUPT_MASK (x.into_bytes ^^^ 0xff) s from rfl,
      write_reg_snd]
  · rw [Nat.testBit_xor]
    have hff : (0xff : Nat).testBit i = true := by interval_cases i <;> decide
    rw [hff]
    cases x.into_bytes.testBit i <;> rfl

/-- Witness for C8: bit 0 of the written byte is the negation of bit 0 of
the encoded byte, for the flags decoded from `0x94`. -/
theorem C8_witness :
    ((ChargerInterrupts.from_bytes 0x94).into_bytes ^^^ 0xff).testBit 0 =
      !(ChargerInterrupts.from_bytes 0x94).into_bytes.testBit 0 :=
  (C8_set_charger_irq_mask okBus (ChargerInterrupts.from_bytes 0x94)
    DState.init).2.2 0 (by norm_num)

set_option maxRecDepth 8192 in
/-- Claim C9: decoding a byte into `ChargerInterrupts` and re-encoding
reproduces the byte exactly, including the reserved bit 2 — the
encode-after-decode direction, stronger than C7's decode-after-encode. -/
theorem C9_bytes_roundtrip : ∀ b, b < 256 →
    ChargerInterrupts.into_bytes (ChargerInterrupts.from_bytes b) = b := by
  decide

/-- Witness for C9: the byte `0x94` (which has the reserved bit 2 set)
round-trips exactly. -/
theorem C9_witness :
    ChargerInterrupts.into_bytes (ChargerInterrupts.from_bytes 0x94) = 0x94 :=
  C9_bytes_roundtrip 0x94 (by norm_num)

/-- Claim C10: `Charger::new` only stores the injected bus device and
issues no bus transactions; the transaction list produced during
construction is empty. -/
theorem C10_new_no_bus_traffic {D : Type} (d : D) :
    (Charger.new d).1.i2c_dev = d ∧ (Charger.new d).2 = [] :=
  ⟨rfl, rfl⟩

end Max7797x
